import Mathlib

/-!
Verification of the data acquisition layer of the climate-change-analysis
repository (`src/data_loader.py`, class `ClimateDataLoader`).

Modelling choices:
* Python strings are modelled as `List Char` (`PyStr`); `str.split`,
  `str.strip`, `str.startswith`, `int(...)` and `float(...)` are embedded as
  executable functions over `List Char` so the kernel can evaluate them.
  `int(...)` / `float(...)` are modelled on the decimal-literal subset
  (optional sign, digits, optional decimal point) actually exercised by the
  CSV feeds; exotic spellings (exponents, inf/nan, underscores) are outside
  the model.
* Floats are modelled as `ℚ`.
* numpy's global random state is modelled as `RandState`: `seedFun` maps a
  seed to its standard-normal draw stream, `cur` is the current stream and
  `pos` the number of draws already consumed.  `np.random.seed k` resets
  `cur` to `seedFun k` and `pos` to `0`; `np.random.normal 0 σ n` returns the
  next `n` draws scaled by `σ` and advances `pos`.
* A pandas `DataFrame` is a list of named columns of rationals.
* A fetch attempt (`requests.get`) either yields a status code and a body, or
  raises (`FetchOutcome.exc`).  The `print` warning emitted in the `except:`
  branch is recorded in the `warned` field of a pipeline's result.
-/

/-- Python strings, modelled as lists of characters. -/
abbrev PyStr := List Char

/-- Python `s.split(c)` for a single-character separator. -/
def splitOnChar (c : Char) : PyStr → List PyStr
  | [] => [[]]
  | a :: t =>
    let r := splitOnChar c t
    if a = c then [] :: r
    else (a :: r.headD []) :: r.tail

/-- Python `s.strip()`: remove leading and trailing whitespace. -/
def pyStrip (s : PyStr) : PyStr :=
  ((s.dropWhile Char.isWhitespace).reverse.dropWhile Char.isWhitespace).reverse

/-- Python `s.startswith(p)`: `startsWithStr p s` is true iff `s` begins with `p`. -/
def startsWithStr : PyStr → PyStr → Bool
  | [], _ => true
  | _ :: _, [] => false
  | a :: p, b :: s => a = b && startsWithStr p s

/-- ASCII decimal digit test. -/
def isDigitCh (c : Char) : Bool := 48 ≤ c.toNat && c.toNat ≤ 57

/-- All characters are decimal digits. -/
def allDigits (l : PyStr) : Bool := l.all isDigitCh

/-- Value of a digit string. -/
def natOfDigits (l : PyStr) : ℕ := l.foldl (fun n c => n * 10 + (c.toNat - 48)) 0

/-- Python `int(s)` on the decimal-literal subset: optional surrounding
whitespace, optional sign, nonempty digit run.  `none` models `ValueError`. -/
def pyInt? (s : PyStr) : Option ℤ :=
  match pyStrip s with
  | '-' :: d => if allDigits d && !d.isEmpty then some (-(natOfDigits d : ℤ)) else none
  | '+' :: d => if allDigits d && !d.isEmpty then some ((natOfDigits d : ℤ)) else none
  | d => if allDigits d && !d.isEmpty then some ((natOfDigits d : ℤ)) else none

/-- Core of `float(s)`: an unsigned decimal literal, with an optional single
decimal point and at least one digit overall. -/
def pyFloatCore? (u : PyStr) : Option ℚ :=
  match splitOnChar '.' u with
  | [a] => if allDigits a && !a.isEmpty then some ((natOfDigits a : ℚ)) else none
  | [a, b] =>
    if allDigits a && allDigits b && !(a.isEmpty && b.isEmpty) then
      some ((natOfDigits a : ℚ) + (natOfDigits b : ℚ) / (10 : ℚ) ^ b.length)
    else none
  | _ => none

/-- Python `float(s)` on the decimal-literal subset.  `none` models `ValueError`. -/
def pyFloat? (s : PyStr) : Option ℚ :=
  match pyStrip s with
  | '-' :: u => (pyFloatCore? u).map (fun v => -v)
  | '+' :: u => pyFloatCore? u
  | u => pyFloatCore? u

/-- Python `int(q)` on a float value: truncation toward zero. -/
def pyTrunc (q : ℚ) : ℤ := if 0 ≤ q then ⌊q⌋ else ⌈q⌉

/-- numpy's global random state: `seedFun k` is the standard-normal draw
stream selected by `np.random.seed(k)`, `cur` the current stream, `pos` the
number of draws already consumed from it. -/
structure RandState where
  seedFun : ℕ → ℕ → ℚ
  cur : ℕ → ℚ
  pos : ℕ

/-- `np.random.seed(k)`: reset the global stream. -/
def npSeed (k : ℕ) (s : RandState) : RandState :=
  { s with cur := s.seedFun k, pos := 0 }

/-- `np.random.normal(0, σ, n)`: the next `n` draws scaled by `σ`, advancing
the global position. -/
def npNormal (σ : ℚ) (n : ℕ) (s : RandState) : List ℚ × RandState :=
  ((List.range n).map (fun i => σ * s.cur (s.pos + i)), { s with pos := s.pos + n })

/-- A pandas `DataFrame`: an ordered list of named columns. -/
abbrev DataFrame := List (String × List ℚ)

/-- Column of a data frame by name (empty when absent). -/
def colD (df : DataFrame) (name : String) : List ℚ :=
  match df with
  | [] => []
  | (n, v) :: t => if n = name then v else colD t name

/-- Outcome of `requests.get`: a response with a status code and body text, or
an exception raised during the request. -/
inductive FetchOutcome where
  | ok (status : ℕ) (text : PyStr)
  | exc

/-- Result of one pipeline: the returned table, the numpy state afterwards,
and whether the `except:` warning was printed. -/
structure PipeResult where
  df : DataFrame
  st : RandState
  warned : Bool

/- ### Temperature pipeline (`load_nasa_temperature_data`, lines 15-78) -/

/-- Lines 24-25: split the body on newlines, keep nonblank lines not starting
with `Year`. -/
def tempDataLines (text : PyStr) : List PyStr :=
  (splitOnChar '\n' text).filter
    (fun l => !(pyStrip l).isEmpty && !(startsWithStr "Year".data l))

/-- Lines 30-40: per-row best-effort parse; a row needs ≥ 2 comma-separated
fields, an integer year and a float anomaly, which is scaled by `0.01`. -/
def tempRecords (text : PyStr) : List (ℤ × ℚ) :=
  (tempDataLines text).filterMap (fun line =>
    let parts := splitOnChar ',' line
    if 2 ≤ parts.length then
      match pyInt? (parts.getD 0 []), pyFloat? (parts.getD 1 []) with
      | some y, some a => some (y, a * 0.01)
      | _, _ => none
    else none)

/-- Lines 42-45: the real-data temperature table. -/
def tempParseDF (text : PyStr) : DataFrame :=
  [("Year", (tempRecords text).map (fun r => ((r.1 : ℚ)))),
   ("Temperature_Anomaly", (tempRecords text).map (fun r => r.2))]

/-- Line 51: `np.arange(1880, 2024)`. -/
def tempYears : List ℚ := (List.range 144).map (fun i => ((1880 + i : ℕ) : ℚ))

/-- Line 55: global average temperature. -/
def base_temp : ℚ := 14.0

/-- Line 58: `years[years <= 1950]`. -/
def tempEarlyYears : List ℚ := tempYears.filter (fun y => decide (y ≤ 1950))

/-- Line 63: `years[years > 1950]`. -/
def tempRecentYears : List ℚ := tempYears.filter (fun y => decide (1950 < y))

/-- Line 59: `0.003 * (early_years - 1880)`. -/
def early_warming : List ℚ := tempEarlyYears.map (fun y => 0.003 * (y - 1880))

/-- Line 60: `np.random.normal(0, 0.15, len(early_years))` after `np.random.seed(42)`. -/
def early_noise (s : RandState) : List ℚ :=
  (npNormal 0.15 tempEarlyYears.length (npSeed 42 s)).1

/-- numpy state after the early-era draws. -/
def tempStateAfterEarly (s : RandState) : RandState :=
  (npNormal 0.15 tempEarlyYears.length (npSeed 42 s)).2

/-- Line 64: `0.015 * (recent_years - 1950) + 0.3`. -/
def recent_warming : List ℚ := tempRecentYears.map (fun y => 0.015 * (y - 1950) + 0.3)

/-- Line 65: `np.random.normal(0, 0.1, len(recent_years))`. -/
def recent_noise (s : RandState) : List ℚ :=
  (npNormal 0.1 tempRecentYears.length (tempStateAfterEarly s)).1

/-- numpy state after the whole temperature synthesis. -/
def tempSynthState (s : RandState) : RandState :=
  (npNormal 0.1 tempRecentYears.length (tempStateAfterEarly s)).2

/-- Line 68: `early_temps = base_temp + early_warming + early_noise`. -/
def early_temps (s : RandState) : List ℚ :=
  List.zipWith (fun w n => base_temp + w + n) early_warming (early_noise s)

/-- Line 69: `recent_temps = base_temp + recent_warming + recent_noise +
early_temps[-1] - (base_temp + recent_warming[0])`. -/
def recent_temps (s : RandState) : List ℚ :=
  List.zipWith
    (fun w n => base_temp + w + n + (early_temps s).getLastD 0 - (base_temp + recent_warming.headD 0))
    recent_warming (recent_noise s)

/-- Line 71: `np.concatenate([early_temps, recent_temps])`. -/
def temperatures (s : RandState) : List ℚ := early_temps s ++ recent_temps s

/-- Lines 74-78: the synthesized temperature table. -/
def tempSynthDF (s : RandState) : DataFrame :=
  [("Year", tempYears),
   ("Temperature", temperatures s),
   ("Temperature_Anomaly", (temperatures s).map (fun t => t - base_temp))]

/-- Lines 15-78: the whole temperature pipeline.  Success of the fetch is
`status == 200`; any other status falls through the `try` block to the
synthesis code without printing; an exception during the request prints the
warning and also falls back to synthesis. -/
def load_nasa_temperature_data : FetchOutcome → RandState → PipeResult
  | .ok status text, s =>
    if status = 200 then ⟨tempParseDF text, s, false⟩
    else ⟨tempSynthDF s, tempSynthState s, false⟩
  | .exc, s => ⟨tempSynthDF s, tempSynthState s, true⟩

/- ### CO2 pipeline (`load_co2_data`, lines 80-128) -/

/-- Lines 88-89: keep nonblank lines not starting with `#`. -/
def co2DataLines (text : PyStr) : List PyStr :=
  (splitOnChar '\n' text).filter
    (fun l => !(startsWithStr "#".data l) && !(pyStrip l).isEmpty)

/-- Lines 94-104: skip the header row, require ≥ 5 fields, parse the year by
`int(float(parts[0]))` and the reading by `float(parts[4])`, and keep only
positive readings. -/
def co2Records (text : PyStr) : List (ℤ × ℚ) :=
  ((co2DataLines text).drop 1).filterMap (fun line =>
    let parts := splitOnChar ',' line
    if 5 ≤ parts.length then
      match pyFloat? (parts.getD 0 []), pyFloat? (parts.getD 4 []) with
      | some y, some c => if 0 < c then some (pyTrunc y, c) else none
      | _, _ => none
    else none)

/-- Lines 106-109: the real-data CO2 table. -/
def co2ParseDF (text : PyStr) : DataFrame :=
  [("Year", (co2Records text).map (fun r => ((r.1 : ℚ)))),
   ("CO2_ppm", (co2Records text).map (fun r => r.2))]

/-- Line 115: `np.arange(1958, 2024)`. -/
def co2Years : List ℚ := (List.range 66).map (fun i => ((1958 + i : ℕ) : ℚ))

/-- Line 119: 1958 level. -/
def co2_base : ℚ := 315

/-- Line 120: `1.5 * (years - 1958) + 0.02 * (years - 1958)**2`. -/
def co2_growth : List ℚ := co2Years.map (fun y => 1.5 * (y - 1958) + 0.02 * (y - 1958) ^ 2)

/-- Line 121: `np.random.normal(0, 0.5, len(years))` after `np.random.seed(123)`. -/
def co2_noise (s : RandState) : List ℚ :=
  (npNormal 0.5 co2Years.length (npSeed 123 s)).1

/-- numpy state after the CO2 synthesis. -/
def co2SynthState (s : RandState) : RandState :=
  (npNormal 0.5 co2Years.length (npSeed 123 s)).2

/-- Line 123: `co2_levels = co2_base + co2_growth * 0.1 + co2_noise`. -/
def co2_levels (s : RandState) : List ℚ :=
  List.zipWith (fun g n => co2_base + g * 0.1 + n) co2_growth (co2_noise s)

/-- Lines 125-128: the synthesized CO2 table. -/
def co2SynthDF (s : RandState) : DataFrame :=
  [("Year", co2Years), ("CO2_ppm", co2_levels s)]

/-- Lines 80-128: the whole CO2 pipeline. -/
def load_co2_data : FetchOutcome → RandState → PipeResult
  | .ok status text, s =>
    if status = 200 then ⟨co2ParseDF text, s, false⟩
    else ⟨co2SynthDF s, co2SynthState s, false⟩
  | .exc, s => ⟨co2SynthDF s, co2SynthState s, true⟩

/- ### Extreme events pipeline (`load_extreme_events_data`, lines 130-145) -/

/-- Line 132: `np.arange(1980, 2023)`. -/
def evYears : List ℚ := (List.range 43).map (fun i => ((1980 + i : ℕ) : ℚ))

/-- Line 135. -/
def base_events : ℚ := 200

/-- Line 136: `0.08 * (years - 1980)`. -/
def event_increase : List ℚ := evYears.map (fun y => 0.08 * (y - 1980))

/-- Line 137: `np.random.normal(0, 15, len(years))` — note: no `np.random.seed`
call in this pipeline; the draws come from whatever the global state is. -/
def event_noise (s : RandState) : List ℚ := (npNormal 15 evYears.length s).1

/-- Line 139: `events_count = base_events + event_increase + event_noise`. -/
def events_count (s : RandState) : List ℚ :=
  List.zipWith (fun inc n => base_events + inc + n) event_increase (event_noise s)

/-- Lines 130-145: the extreme-events pipeline (always synthetic). -/
def load_extreme_events_data (s : RandState) : DataFrame × RandState :=
  ([("Year", evYears),
    ("Extreme_Events", events_count s),
    ("Economic_Loss_Billions", (events_count s).map (fun e => e * 0.5))],
   (npNormal 15 evYears.length s).2)

/- ### Loader (`get_all_data`, lines 147-156) -/

/-- Lines 147-156: run the three pipelines sequentially (sharing the global
numpy state) and return the three tables in fixed order. -/
def get_all_data (o1 o2 : FetchOutcome) (s : RandState) :
    (DataFrame × DataFrame × DataFrame) × RandState :=
  let r1 := load_nasa_temperature_data o1 s
  let r2 := load_co2_data o2 r1.st
  let r3 := load_extreme_events_data r2.st
  ((r1.df, r2.df, r3.1), r3.2)

/- ### Auxiliary notions used by the statements -/

/-- Strictly ascending list of rationals (sorted with no duplicates). -/
def strictSorted : List ℚ → Bool
  | [] => true
  | [_] => true
  | a :: b :: t => decide (a < b) && strictSorted (b :: t)

/-- A concrete random state whose streams are identically zero. -/
def zeroState : RandState := ⟨fun _ _ => 0, fun _ => 0, 0⟩

/-- A concrete random state whose streams enumerate the naturals, so draws at
different positions differ. -/
def iotaState : RandState := ⟨fun k i => ((k + i : ℕ) : ℚ), fun i => ((i : ℕ) : ℚ), 0⟩

/- ### Structural facts about the synthesized series -/

set_option maxRecDepth 4000 in
theorem tempEarlyYears_eq :
    tempEarlyYears = (List.range 71).map (fun i => ((1880 + i : ℕ) : ℚ)) := by decide

set_option maxRecDepth 4000 in
theorem tempRecentYears_eq :
    tempRecentYears = (List.range 73).map (fun j => ((1951 + j : ℕ) : ℚ)) := by decide

theorem zipWith_map_range (f : ℚ → ℚ → ℚ) (g h : ℕ → ℚ) (n : ℕ) :
    List.zipWith f ((List.range n).map g) ((List.range n).map h)
      = (List.range n).map (fun i => f (g i) (h i)) := by
  simp [List.zipWith_map, List.zipWith_same]

theorem getD_map_range (F : ℕ → ℚ) {n i : ℕ} (h : i < n) :
    (((List.range n).map F).getD i 0) = F i := by
  simp [List.getD_eq_getElem?_getD, List.getElem?_map, List.getElem?_range h]

theorem getLastD_map_range (F : ℕ → ℚ) (n : ℕ) :
    (((List.range (n+1)).map F).getLastD 0) = F n := by
  rw [List.getLastD_eq_getLast?, List.getLast?_map, List.range_succ]
  simp

theorem headD_map_range (F : ℕ → ℚ) (n : ℕ) :
    (((List.range (n+1)).map F).headD 0) = F 0 := by
  simp [List.range_succ_eq_map]

theorem early_noise_eq (s : RandState) :
    early_noise s = (List.range 71).map (fun i => 0.15 * s.seedFun 42 i) := by
  have h : tempEarlyYears.length = 71 := by decide
  simp [early_noise, npNormal, npSeed, h]

theorem early_warming_eq :
    early_warming = (List.range 71).map (fun i => 0.003 * (((1880 + i : ℕ) : ℚ) - 1880)) := by
  rw [early_warming, tempEarlyYears_eq, List.map_map]
  rfl

theorem early_temps_eq (s : RandState) :
    early_temps s = (List.range 71).map
      (fun i => base_temp + 0.003 * (((1880 + i : ℕ) : ℚ) - 1880) + 0.15 * s.seedFun 42 i) := by
  rw [early_temps, early_warming_eq, early_noise_eq, zipWith_map_range]

theorem recent_noise_eq (s : RandState) :
    recent_noise s = (List.range 73).map (fun j => 0.1 * s.seedFun 42 (71 + j)) := by
  have h1 : tempEarlyYears.length = 71 := by decide
  have h2 : tempRecentYears.length = 73 := by decide
  simp [recent_noise, tempStateAfterEarly, npNormal, npSeed, h1, h2]

theorem recent_warming_eq :
    recent_warming = (List.range 73).map
      (fun j => 0.015 * (((1951 + j : ℕ) : ℚ) - 1950) + 0.3) := by
  rw [recent_warming, tempRecentYears_eq, List.map_map]
  rfl

theorem early_temps_getLastD (s : RandState) :
    (early_temps s).getLastD 0
      = base_temp + 0.003 * (((1880 + 70 : ℕ) : ℚ) - 1880) + 0.15 * s.seedFun 42 70 := by
  rw [early_temps_eq]
  exact getLastD_map_range _ 70

theorem recent_temps_eq (s : RandState) :
    recent_temps s = (List.range 73).map
      (fun j => base_temp + (0.015 * (((1951 + j : ℕ) : ℚ) - 1950) + 0.3) + 0.1 * s.seedFun 42 (71 + j)
        + (base_temp + 0.003 * (((1880 + 70 : ℕ) : ℚ) - 1880) + 0.15 * s.seedFun 42 70)
        - (base_temp + (0.015 * (((1951 + 0 : ℕ) : ℚ) - 1950) + 0.3))) := by
  rw [recent_temps, early_temps_getLastD, recent_warming_eq, headD_map_range]
  rw [recent_noise_eq, zipWith_map_range]

theorem temperatures_length (s : RandState) : (temperatures s).length = 144 := by
  rw [temperatures, List.length_append, early_temps_eq, recent_temps_eq]
  simp

/-- At the era boundary the synthesized temperature changes only by the first
recent-era noise draw: the additive offset on line 69 cancels the recent
trend's first increment. -/
theorem temps_boundary (s : RandState) :
    (temperatures s).getD 71 0 = (temperatures s).getD 70 0 + 0.1 * s.seedFun 42 71 := by
  have hlen : (early_temps s).length = 71 := by rw [early_temps_eq]; simp
  have h71 : (temperatures s).getD 71 0 = (recent_temps s).getD 0 0 := by
    rw [temperatures, List.getD_append_right _ _ _ _ (by omega)]
    rw [hlen]
  have h70 : (temperatures s).getD 70 0 = (early_temps s).getD 70 0 := by
    rw [temperatures, List.getD_append _ _ _ _ (by omega)]
  rw [h71, h70, recent_temps_eq, early_temps_eq,
    getD_map_range _ (by omega : (0:ℕ) < 73), getD_map_range _ (by omega : (70:ℕ) < 71)]
  push_cast
  ring

theorem co2_noise_eq (s : RandState) :
    co2_noise s = (List.range 66).map (fun i => 0.5 * s.seedFun 123 i) := by
  have h : co2Years.length = 66 := by simp [co2Years]
  simp [co2_noise, npNormal, npSeed, h]

theorem co2_growth_eq :
    co2_growth = (List.range 66).map
      (fun i => 1.5 * (((1958 + i : ℕ) : ℚ) - 1958) + 0.02 * (((1958 + i : ℕ) : ℚ) - 1958) ^ 2) := by
  rw [co2_growth, co2Years, List.map_map]
  rfl

theorem co2_levels_eq (s : RandState) :
    co2_levels s = (List.range 66).map
      (fun i => co2_base
        + (1.5 * (((1958 + i : ℕ) : ℚ) - 1958) + 0.02 * (((1958 + i : ℕ) : ℚ) - 1958) ^ 2) * 0.1
        + 0.5 * s.seedFun 123 i) := by
  rw [co2_levels, co2_growth_eq, co2_noise_eq, zipWith_map_range]

theorem event_increase_eq :
    event_increase = (List.range 43).map (fun j => 0.08 * (((1980 + j : ℕ) : ℚ) - 1980)) := by
  rw [event_increase, evYears, List.map_map]
  rfl

theorem event_noise_eq (s : RandState) :
    event_noise s = (List.range 43).map (fun j => 15 * s.cur (s.pos + j)) := by
  have h : evYears.length = 43 := by simp [evYears]
  simp [event_noise, npNormal, h]

theorem events_count_eq (s : RandState) :
    events_count s = (List.range 43).map
      (fun j => base_events + 0.08 * (((1980 + j : ℕ) : ℚ) - 1980) + 15 * s.cur (s.pos + j)) := by
  rw [events_count, event_increase_eq, event_noise_eq, zipWith_map_range]

/- ### Claims -/

/-- C1: the loader operation get_all_data always returns the three tables in
the fixed order (temperature, CO2, extreme events) and never fails: for every
outcome of the fetch attempts the temperature and CO2 pipelines either parse
the fetched text or fall back to synthesis (the embedding is total, so no
exception propagates out of the load call). -/
theorem c1_loader_always_three_tables (o1 o2 : FetchOutcome) (s : RandState) :
    (get_all_data o1 o2 s).1
      = ((load_nasa_temperature_data o1 s).df,
         (load_co2_data o2 (load_nasa_temperature_data o1 s).st).df,
         (load_extreme_events_data (load_co2_data o2 (load_nasa_temperature_data o1 s).st).st).1)
    ∧ ((∃ tx, (load_nasa_temperature_data o1 s).df = tempParseDF tx)
        ∨ (load_nasa_temperature_data o1 s).df = tempSynthDF s)
    ∧ (∀ t : RandState, (∃ tx, (load_co2_data o2 t).df = co2ParseDF tx)
        ∨ (load_co2_data o2 t).df = co2SynthDF t) := by
  refine ⟨rfl, ?_, ?_⟩
  · cases o1 with
    | ok status tx =>
      by_cases h : status = 200
      · exact Or.inl ⟨tx, by simp [load_nasa_temperature_data, h]⟩
      · exact Or.inr (by simp [load_nasa_temperature_data, h])
    | exc => exact Or.inr rfl
  · intro t
    cases o2 with
    | ok status tx =>
      by_cases h : status = 200
      · exact Or.inl ⟨tx, by simp [load_co2_data, h]⟩
      · exact Or.inr (by simp [load_co2_data, h])
    | exc => exact Or.inr rfl

/-- C2: when all fetches fail, the loader returns a temperature table of 144
consecutive years 1880-2023, a CO2 table of 66 consecutive years 1958-2023 and
an extreme-events table of 43 consecutive years 1980-2022, each with one
record per year in every column. -/
theorem c2_all_fail_shapes (s : RandState) :
    colD (get_all_data .exc .exc s).1.1 "Year"
        = (List.range 144).map (fun i => ((1880 + i : ℕ) : ℚ))
    ∧ (colD (get_all_data .exc .exc s).1.1 "Temperature").length = 144
    ∧ (colD (get_all_data .exc .exc s).1.1 "Temperature_Anomaly").length = 144
    ∧ colD (get_all_data .exc .exc s).1.2.1 "Year"
        = (List.range 66).map (fun i => ((1958 + i : ℕ) : ℚ))
    ∧ (colD (get_all_data .exc .exc s).1.2.1 "CO2_ppm").length = 66
    ∧ colD (get_all_data .exc .exc s).1.2.2 "Year"
        = (List.range 43).map (fun i => ((1980 + i : ℕ) : ℚ))
    ∧ (colD (get_all_data .exc .exc s).1.2.2 "Extreme_Events").length = 43
    ∧ (colD (get_all_data .exc .exc s).1.2.2 "Economic_Loss_Billions").length = 43 := by
  have h1 : colD (get_all_data .exc .exc s).1.1 "Temperature" = temperatures s := rfl
  have h2 : colD (get_all_data .exc .exc s).1.1 "Temperature_Anomaly"
      = (temperatures s).map (fun t => t - base_temp) := rfl
  have h3 : colD (get_all_data .exc .exc s).1.2.1 "CO2_ppm"
      = co2_levels (tempSynthState s) := rfl
  have h4 : colD (get_all_data .exc .exc s).1.2.2 "Extreme_Events"
      = events_count (co2SynthState (tempSynthState s)) := rfl
  have h5 : colD (get_all_data .exc .exc s).1.2.2 "Economic_Loss_Billions"
      = (events_count (co2SynthState (tempSynthState s))).map (fun e => e * 0.5) := rfl
  refine ⟨rfl, ?_, ?_, rfl, ?_, rfl, ?_, ?_⟩
  · rw [h1, temperatures_length]
  · rw [h2, List.length_map, temperatures_length]
  · rw [h3, co2_levels_eq]; simp
  · rw [h4, events_count_eq]; simp
  · rw [h5, List.length_map, events_count_eq]; simp

/-- C3 refuted as stated: with all noise draws zero, the synthesized value at
year 1951 minus the value at year 1950 is 0, not the recent trend's first
step 0.015 * 1 + 0.3 — the offset on line 69 cancels that step. -/
theorem c3_era_boundary_counterexample :
    (colD (load_nasa_temperature_data .exc zeroState).df "Temperature").getD 71 0
        - (colD (load_nasa_temperature_data .exc zeroState).df "Temperature").getD 70 0
      ≠ 0.015 * 1 + 0.3 := by
  have h : colD (load_nasa_temperature_data .exc zeroState).df "Temperature"
      = temperatures zeroState := rfl
  rw [h, temps_boundary]
  have hz : zeroState.seedFun 42 71 = 0 := rfl
  rw [hz]
  norm_num

/-- C3 amended: the synthesized temperature at year 1951 (index 71) equals the
value at year 1950 (index 70) plus only the first recent-era noise draw; the
additive offset makes the series exactly continuous at the era boundary,
cancelling the recent trend's first increment rather than adding it. -/
theorem c3_era_boundary_amended (s : RandState) :
    (colD (load_nasa_temperature_data .exc s).df "Temperature").getD 71 0
      = (colD (load_nasa_temperature_data .exc s).df "Temperature").getD 70 0
        + 0.1 * s.seedFun 42 71 :=
  temps_boundary s

/-- C4 amended: success of a fetch is exactly status 200 (not any 2xx); any
other status and any exception trigger synthesis; the warning is printed only
when an exception is raised, not on a non-200 status. -/
theorem c4_success_dispatch_amended (status : ℕ) (text : PyStr) (s : RandState) :
    (status = 200 →
      load_nasa_temperature_data (.ok status text) s = ⟨tempParseDF text, s, false⟩
      ∧ load_co2_data (.ok status text) s = ⟨co2ParseDF text, s, false⟩)
    ∧ (status ≠ 200 →
      load_nasa_temperature_data (.ok status text) s = ⟨tempSynthDF s, tempSynthState s, false⟩
      ∧ load_co2_data (.ok status text) s = ⟨co2SynthDF s, co2SynthState s, false⟩)
    ∧ load_nasa_temperature_data .exc s = ⟨tempSynthDF s, tempSynthState s, true⟩
    ∧ load_co2_data .exc s = ⟨co2SynthDF s, co2SynthState s, true⟩ := by
  refine ⟨fun h => ⟨by simp [load_nasa_temperature_data, h], by simp [load_co2_data, h]⟩,
          fun h => ⟨by simp [load_nasa_temperature_data, h], by simp [load_co2_data, h]⟩,
          rfl, rfl⟩

/-- Witness for the amended C4 at status 200 and status 404. -/
theorem c4_witness :
    (load_nasa_temperature_data (.ok 200 []) zeroState
        = ⟨tempParseDF [], zeroState, false⟩
      ∧ load_co2_data (.ok 200 []) zeroState = ⟨co2ParseDF [], zeroState, false⟩)
    ∧ (load_nasa_temperature_data (.ok 404 []) zeroState
        = ⟨tempSynthDF zeroState, tempSynthState zeroState, false⟩
      ∧ load_co2_data (.ok 404 []) zeroState
        = ⟨co2SynthDF zeroState, co2SynthState zeroState, false⟩) :=
  ⟨(c4_success_dispatch_amended 200 [] zeroState).1 rfl,
   (c4_success_dispatch_amended 404 [] zeroState).2.1 (by decide)⟩

/-- C4 refuted as stated: status 204 is 2xx-equivalent and the body parses,
yet the pipeline does not take the parse path (the returned schema is the
synthesized one) and no warning is printed for this failure. -/
theorem c4_counterexample :
    (load_nasa_temperature_data (.ok 204 ("2004,100".data)) zeroState).df.map Prod.fst
      ≠ (tempParseDF ("2004,100".data)).map Prod.fst
    ∧ (load_nasa_temperature_data (.ok 204 ("2004,100".data)) zeroState).warned = false := by
  constructor
  · decide
  · rfl

/-- C5 refuted as stated: a successfully fetched body whose rows are in
descending year order yields a table that is not sorted ascending by year —
the parse path preserves source row order. -/
theorem c5_sorted_counterexample :
    strictSorted (colD (load_nasa_temperature_data
      (.ok 200 ("2000,50\n1999,30".data)) zeroState).df "Year") = false := by decide

set_option maxRecDepth 4000 in
/-- C5 amended: the three synthesized tables are sorted strictly ascending by
year (hence duplicate-free), while the parse paths return records in source
row order, which need not be sorted or duplicate-free. -/
theorem c5_sorted_amended (s : RandState) :
    strictSorted (colD (load_nasa_temperature_data .exc s).df "Year") = true
    ∧ strictSorted (colD (load_co2_data .exc s).df "Year") = true
    ∧ strictSorted (colD (load_extreme_events_data s).1 "Year") = true
    ∧ (∀ text, colD (load_nasa_temperature_data (.ok 200 text) s).df "Year"
        = (tempRecords text).map (fun r => ((r.1 : ℚ))))
    ∧ (∀ text, colD (load_co2_data (.ok 200 text) s).df "Year"
        = (co2Records text).map (fun r => ((r.1 : ℚ)))) := by
  refine ⟨?_, ?_, ?_, fun _ => rfl, fun _ => rfl⟩
  · show strictSorted tempYears = true
    decide
  · show strictSorted co2Years = true
    decide
  · show strictSorted evYears = true
    decide

/-- C6: in every extreme-events table the Economic_Loss_Billions column is
exactly the Extreme_Events column scaled by 0.5 — a derived field, recomputed
from the same events list, never independently stored. -/
theorem c6_derived_loss (s : RandState) :
    colD (load_extreme_events_data s).1 "Economic_Loss_Billions"
      = (colD (load_extreme_events_data s).1 "Extreme_Events").map (fun e => e * 0.5) := rfl

/-- C7: on the CO2 synthesis path (fixed seed 123), every entry satisfies
co2_ppm = 315 + (1.5*(year-1958) + 0.02*(year-1958)^2) * 0.1 + noise, with the
0.1 damping factor applied to the whole growth term and the noise drawn with
standard deviation 0.5 (modelled as 0.5 times the seed-123 standard draw). -/
theorem c7_co2_formula (s : RandState) (i : ℕ) (h : i < 66) :
    (colD (load_co2_data .exc s).df "CO2_ppm").getD i 0
      = 315 + (1.5 * (((colD (load_co2_data .exc s).df "Year").getD i 0) - 1958)
          + 0.02 * (((colD (load_co2_data .exc s).df "Year").getD i 0) - 1958) ^ 2) * 0.1
        + 0.5 * s.seedFun 123 i := by
  have hy : colD (load_co2_data .exc s).df "Year" = co2Years := rfl
  have hc : colD (load_co2_data .exc s).df "CO2_ppm" = co2_levels s := rfl
  rw [hy, hc, co2_levels_eq, co2Years, getD_map_range _ h, getD_map_range _ h]
  rfl

/-- Witness for C7 at index 0 of the zero-noise state. -/
theorem c7_witness :
    (0:ℕ) < 66
    ∧ (colD (load_co2_data .exc zeroState).df "CO2_ppm").getD 0 0
      = 315 + (1.5 * (((colD (load_co2_data .exc zeroState).df "Year").getD 0 0) - 1958)
          + 0.02 * (((colD (load_co2_data .exc zeroState).df "Year").getD 0 0) - 1958) ^ 2) * 0.1
        + 0.5 * zeroState.seedFun 123 0 :=
  ⟨by norm_num, c7_co2_formula zeroState 0 (by norm_num)⟩

/-- C8 amended: the temperature and CO2 syntheses are deterministic because
each reseeds the global generator (seeds 42 and 123): running either twice in
sequence yields identical tables.  The extreme-events pipeline does not
reseed, so its repeated outputs depend on the advancing global state (see the
counterexample). -/
theorem c8_seeded_determinism_amended (s : RandState) :
    (load_nasa_temperature_data .exc (load_nasa_temperature_data .exc s).st).df
      = (load_nasa_temperature_data .exc s).df
    ∧ (load_co2_data .exc (load_co2_data .exc s).st).df = (load_co2_data .exc s).df :=
  ⟨rfl, rfl⟩

/-- C8 refuted as stated: the extreme-events synthesis never calls
np.random.seed, so calling it twice in a row (threading the global numpy
state) draws different noise and produces different tables. -/
theorem c8_counterexample :
    (load_extreme_events_data (load_extreme_events_data iotaState).2).1
      ≠ (load_extreme_events_data iotaState).1 := by
  intro h
  have h2 : (colD (load_extreme_events_data (load_extreme_events_data iotaState).2).1
        "Extreme_Events").getD 0 0
      = (colD (load_extreme_events_data iotaState).1 "Extreme_Events").getD 0 0 := by rw [h]
  have e1 : colD (load_extreme_events_data iotaState).1 "Extreme_Events"
      = events_count iotaState := rfl
  have e2 : colD (load_extreme_events_data (load_extreme_events_data iotaState).2).1
        "Extreme_Events"
      = events_count (load_extreme_events_data iotaState).2 := rfl
  rw [e1, e2, events_count_eq, events_count_eq,
    getD_map_range _ (by omega : (0:ℕ) < 43), getD_map_range _ (by omega : (0:ℕ) < 43)] at h2
  simp only [load_extreme_events_data, npNormal, iotaState, evYears, List.length_map,
    List.length_range, Nat.add_zero, Nat.zero_add] at h2
  norm_num at h2

/-- C9: the temperature pipeline's two paths return different schemas — on a
status-200 parse the columns are Year and Temperature_Anomaly, while every
fallback table additionally contains the absolute Temperature column. -/
theorem c9_schema_divergence (status : ℕ) (text : PyStr) (s : RandState) :
    (status = 200 →
      (load_nasa_temperature_data (.ok status text) s).df.map Prod.fst
        = ["Year", "Temperature_Anomaly"])
    ∧ (status ≠ 200 →
      (load_nasa_temperature_data (.ok status text) s).df.map Prod.fst
        = ["Year", "Temperature", "Temperature_Anomaly"])
    ∧ (load_nasa_temperature_data .exc s).df.map Prod.fst
        = ["Year", "Temperature", "Temperature_Anomaly"] := by
  refine ⟨fun h => by simp [load_nasa_temperature_data, h, tempParseDF],
          fun h => by simp [load_nasa_temperature_data, h, tempSynthDF],
          by simp [load_nasa_temperature_data, tempSynthDF]⟩

/-- Witness for C9 at status 200 and status 404. -/
theorem c9_witness :
    (load_nasa_temperature_data (.ok 200 []) zeroState).df.map Prod.fst
        = ["Year", "Temperature_Anomaly"]
    ∧ (load_nasa_temperature_data (.ok 404 []) zeroState).df.map Prod.fst
        = ["Year", "Temperature", "Temperature_Anomaly"] :=
  ⟨(c9_schema_divergence 200 [] zeroState).1 rfl,
   (c9_schema_divergence 404 [] zeroState).2.1 (by decide)⟩

/-- C10: a status-200 response always takes the parse path (synthesis is
triggered only by a non-200 status or an exception), and when no row of the
body parses the pipelines return an empty table rather than falling back. -/
theorem c10_empty_parse (text : PyStr) (s : RandState) :
    load_nasa_temperature_data (.ok 200 text) s = ⟨tempParseDF text, s, false⟩
    ∧ load_co2_data (.ok 200 text) s = ⟨co2ParseDF text, s, false⟩
    ∧ (tempRecords text = [] →
        (load_nasa_temperature_data (.ok 200 text) s).df
          = [("Year", []), ("Temperature_Anomaly", [])])
    ∧ (co2Records text = [] →
        (load_co2_data (.ok 200 text) s).df = [("Year", []), ("CO2_ppm", [])]) := by
  refine ⟨rfl, rfl, fun h => ?_, fun h => ?_⟩
  · show tempParseDF text = _
    rw [tempParseDF, h]
    rfl
  · show co2ParseDF text = _
    rw [co2ParseDF, h]
    rfl

/-- Witness for C10: a body none of whose rows parses yields empty tables on
the status-200 path. -/
theorem c10_witness :
    tempRecords ("hello".data) = []
    ∧ (load_nasa_temperature_data (.ok 200 ("hello".data)) zeroState).df
        = [("Year", []), ("Temperature_Anomaly", [])]
    ∧ co2Records ("hello".data) = []
    ∧ (load_co2_data (.ok 200 ("hello".data)) zeroState).df
        = [("Year", []), ("CO2_ppm", [])] :=
  ⟨by decide,
   (c10_empty_parse ("hello".data) zeroState).2.2.1 (by decide),
   by decide,
   (c10_empty_parse ("hello".data) zeroState).2.2.2 (by decide)⟩
